import Mathlib

/-!
Verification of the Vec-Doc expiry-alert and maintenance subsystem.

This file gives a shallow embedding, in Lean 4, of the parts of the
repository that the specification's claims are about:

* `BikeService.updateOdometer` and `BikeService.calculateOilChangeStatus`
  (src/backend/src/services/bike.service.ts);
* `DocumentService.update` / `DocumentService.delete` and the private
  `generateAlerts` schedule generator
  (src/backend/src/services/document.service.ts);
* the recurring alert processor `processDocumentAlerts` and the
  notification-content mapping `getAlertContent`
  (the cron alert-processor module).

Modelling conventions:

* Timestamps are integers counting minutes since an epoch.  A calendar
  day is 1440 minutes; `t / 1440` (Euclidean) is the calendar day of `t` and
  `t % 1440` its time of day in minutes (the JS code reads these via
  `getHours()` / `getMinutes()` / `setHours` / `setDate`).  The source
  computes retry delays in milliseconds (`delayMinutes * 60 * 1000`); in
  the minute-grained model the same delay is `delayMinutes` minutes.
* Database rows become Lean structures; prisma `update` / `deleteMany` /
  `createMany` calls become pure list transformations of an explicit
  store, and thrown service errors become `Except` values.
* The delivery collaborator (`prisma.notificationQueue.create`) can fail
  at runtime; its success is an explicit boolean parameter of the
  processor model, which drives the catch/retry path of the source.
* Locale date formatting (`toLocaleDateString('en-IN', ...)`) is not
  modelled bit-for-bit: the already-formatted expiry string is passed in
  as data.  No claim depends on the locale format.
-/

namespace VecDoc

/-- The `AlertStatus` enum from the prisma schema. -/
inductive AlertStatus where
  | PENDING
  | SENT
  | FAILED
  | ACKNOWLEDGED
deriving DecidableEq, Repr

/-- The `NotificationPriority` enum from the prisma schema. -/
inductive NotificationPriority where
  | LOW
  | NORMAL
  | HIGH
  | CRITICAL
deriving DecidableEq, Repr

/-- The `NotificationStatus` enum from the prisma schema. -/
inductive NotificationStatus where
  | PENDING
  | SENT
  | FAILED
  | CANCELLED
deriving DecidableEq, Repr

/-! ## Bike service (src/backend/src/services/bike.service.ts) -/

/-- The fields of a `Bike` row used by `updateOdometer` and
`calculateOilChangeStatus` (prisma `Int` columns become `ℤ`). -/
structure Bike where
  id : Nat
  userId : Nat
  currentOdometerKm : ℤ
  lastOilChangeKm : ℤ
  oilChangeIntervalKm : ℤ
deriving DecidableEq, Repr

/-- Oil-change urgency status (the string union
`'ok' | 'due_soon' | 'overdue'` in the source). -/
inductive OilStatus where
  | ok
  | due_soon
  | overdue
deriving DecidableEq, Repr

/-- Return shape of `calculateOilChangeStatus`.  `percentageUsed` is a
rational standing for the JS number. -/
structure OilChangeStatus where
  status : OilStatus
  kmRemaining : ℤ
  kmSinceLastChange : ℤ
  percentageUsed : ℚ
  nextChangeAtKm : ℤ
  overdueByKm : ℤ
deriving DecidableEq, Repr

/-- The JS `Math.round`: round half away from zero towards positive
infinity, i.e. `⌊x + 1/2⌋`. -/
def jsRound (x : ℚ) : ℤ := ⌊x + 1/2⌋

/-- Evaluation of `Math.round(p * 100) / 100` — round to two decimal places. -/
def roundTwo (x : ℚ) : ℚ := (jsRound (x * 100) : ℚ) / 100

/-- Transcription of `BikeService.calculateOilChangeStatus` from
bike.service.ts lines 209–236. -/
def calculateOilChangeStatus (bike : Bike) : OilChangeStatus :=
  let interval := bike.oilChangeIntervalKm
  let lastChangeKm := bike.lastOilChangeKm
  let currentKm := bike.currentOdometerKm
  let kmSinceChange := currentKm - lastChangeKm
  let kmRemaining := interval - kmSinceChange
  let nextChangeAtKm := lastChangeKm + interval
  let percentageUsed := min 100 ((kmSinceChange : ℚ) / (interval : ℚ) * 100)
  let status : OilStatus :=
    if kmRemaining ≤ 0 then .overdue
    else if kmRemaining ≤ 250 then .due_soon
    else .ok
  { status := status
    kmRemaining := max 0 kmRemaining
    kmSinceLastChange := kmSinceChange
    percentageUsed := roundTwo percentageUsed
    nextChangeAtKm := nextChangeAtKm
    overdueByKm := |min 0 kmRemaining| }

/-- Modelled from the spec (§ Urgency Calculator), for comparison with
`calculateOilChangeStatus`: the reference result shape
`{status, kmRemaining, percentageUsed}` with
`percentageUsed = clamp(0..100, kmSinceChange / intervalKm * 100)`. -/
structure SpecOilStatus where
  status : OilStatus
  kmRemaining : ℤ
  percentageUsed : ℚ
deriving DecidableEq, Repr

/-- Modelled from the spec: `oilChangeStatus(current, last, interval)`
with both-ended clamping of `percentageUsed`, exactly as the spec words
it. -/
def specOilChangeStatus (bike : Bike) : SpecOilStatus :=
  let kmSinceChange := bike.currentOdometerKm - bike.lastOilChangeKm
  let kmRemaining := bike.oilChangeIntervalKm - kmSinceChange
  { status :=
      if kmRemaining ≤ 0 then .overdue
      else if kmRemaining ≤ 250 then .due_soon
      else .ok
    kmRemaining := max 0 kmRemaining
    percentageUsed :=
      max 0 (min 100 ((kmSinceChange : ℚ) / (bike.oilChangeIntervalKm : ℚ) * 100)) }

/-- Transcription of `BikeService.updateOdometer` (bike.service.ts lines 196–207): the
thrown `ForbiddenError` becomes `Except.error`. -/
def updateOdometer (bike : Bike) (newOdometer : ℤ) : Except String Bike :=
  if newOdometer < bike.currentOdometerKm then
    .error "New odometer reading cannot be less than current"
  else
    .ok { bike with currentOdometerKm := newOdometer }

/-- Store-level view of `updateOdometer`: on a thrown error no prisma
`update` runs, so the row is unchanged. -/
def updateOdometerInStore (bikes : List Bike) (bikeId : Nat) (newOdometer : ℤ) :
    List Bike :=
  bikes.map (fun b =>
    if b.id = bikeId then
      match updateOdometer b newOdometer with
      | .ok b' => b'
      | .error _ => b
    else b)

/-! ## Document service (src/backend/src/services/document.service.ts) -/

/-- The fields of a `Document` row used by alert generation.
`expiryDate` is nullable (minutes since epoch). -/
structure Document where
  id : Nat
  userId : Nat
  title : String
  expiryDate : Option ℤ
  deletedAt : Option ℤ
deriving DecidableEq, Repr

/-- A `document_alerts` row. -/
structure DocumentAlert where
  id : Nat
  documentId : Nat
  userId : Nat
  alertType : String
  scheduledAt : ℤ
  sentAt : Option ℤ
  status : AlertStatus
  retryCount : Nat
  lastError : Option String
deriving DecidableEq, Repr

/-- The `alertConfigs` ladder of `generateAlerts`: alert type and days
before expiry, in source order. -/
def alertConfigs : List (String × Nat) :=
  [("30_day", 30), ("7_day", 7), ("1_day", 1), ("expired", 0)]

/-- Effect of `setHours(9, 0, 0, 0)` on a minute timestamp: keep the calendar day,
set the time of day to 09:00. -/
def setHourNine (t : ℤ) : ℤ := t / 1440 * 1440 + 540

/-- A row pushed by `generateAlerts` before `createMany` assigns ids. -/
structure NewAlert where
  documentId : Nat
  userId : Nat
  alertType : String
  scheduledAt : ℤ
  status : AlertStatus
deriving DecidableEq, Repr

/-- Transcription of `DocumentService.generateAlerts` (document.service.ts lines
174–206): for each ladder rung, `alertDate` is the expiry date moved
back `daysBefore` days and pinned to 09:00; the instance is kept only if
`alertDate > now`. -/
def generateAlerts (doc : Document) (now : ℤ) : List NewAlert :=
  match doc.expiryDate with
  | none => []
  | some expiry =>
    alertConfigs.filterMap (fun cfg =>
      let alertDate := setHourNine (expiry - (cfg.2 : ℤ) * 1440)
      if now < alertDate then
        some { documentId := doc.id
               userId := doc.userId
               alertType := cfg.1
               scheduledAt := alertDate
               status := .PENDING }
      else none)

/-- Effect of `createMany`: append the generated rows to the store, the database
assigning fresh ids `nextId`, `nextId + 1`, …. -/
def appendNewAlerts (alerts : List DocumentAlert) (news : List NewAlert)
    (nextId : Nat) : List DocumentAlert :=
  alerts ++ news.enum.map (fun p =>
    { id := nextId + p.1
      documentId := p.2.documentId
      userId := p.2.userId
      alertType := p.2.alertType
      scheduledAt := p.2.scheduledAt
      sentAt := none
      status := p.2.status
      retryCount := 0
      lastError := none })

/-- The alert-store effect of `DocumentService.update` (document.service.ts
lines 102–136) when the DTO carries an expiry date: set the new expiry,
`deleteMany` the document's `PENDING` alerts, and regenerate from the
updated document.  When the DTO has no expiry date the store is untouched. -/
def documentServiceUpdate (doc : Document) (alerts : List DocumentAlert)
    (dtoExpiryDate : Option ℤ) (now : ℤ) (nextId : Nat) :
    Document × List DocumentAlert :=
  match dtoExpiryDate with
  | none => (doc, alerts)
  | some e =>
    let updated := { doc with expiryDate := some e }
    let remaining :=
      alerts.filter (fun a => !(a.documentId = doc.id ∧ a.status = .PENDING))
    let regenerated :=
      match updated.expiryDate with
      | some _ => generateAlerts updated now
      | none => []
    (updated, appendNewAlerts remaining regenerated nextId)

/-- The alert-store effect of `DocumentService.delete` (document.service.ts
lines 137–151): soft-delete the document, then mark its `PENDING` alerts
`ACKNOWLEDGED` in place. -/
def documentServiceDelete (doc : Document) (alerts : List DocumentAlert)
    (now : ℤ) : Document × List DocumentAlert :=
  ({ doc with deletedAt := some now },
   alerts.map (fun a =>
     if a.documentId = doc.id ∧ a.status = .PENDING then
       { a with status := .ACKNOWLEDGED }
     else a))

/-! ## Alert processor (cron module, `processDocumentAlerts`) -/

/-- The fields of a `notification_settings` row used by the processor.
`quietHoursStart` / `quietHoursEnd` are nullable `"HH:MM"` strings
(format enforced by the route validator). -/
structure NotificationSettings where
  userId : Nat
  documentAlerts : Bool
  quietHoursStart : Option String
  quietHoursEnd : Option String
deriving DecidableEq, Repr

/-- Decimal value of a digit string (`Number` on a digit-only string). -/
def digitsVal (cs : List Char) : Nat :=
  cs.foldl (fun acc c => acc * 10 + (c.toNat - 48)) 0

/-- Split a character list at `':'` (the `split(':')` of the source). -/
def splitColon (cs : List Char) : List (List Char) :=
  match cs with
  | [] => [[]]
  | c :: rest =>
    let r := splitColon rest
    if c = ':' then [] :: r
    else
      match r with
      | [] => [[c]]
      | g :: gs => (c :: g) :: gs

/-- Evaluation of `s.split(':').map(Number)` destructured as `[hour, minute]`, for the
validator-checked `"HH:MM"` strings. -/
def parseTimeOfDay (s : String) : Nat × Nat :=
  match (splitColon s.data).map digitsVal with
  | h :: m :: _ => (h, m)
  | [h] => (h, 0)
  | [] => (0, 0)

/-- The processor's quiet-hours containment test (cron module lines
62–76): minute-of-day comparison, with the wrapping case when
`startTime > endTime`. -/
def isQuietTime (now : ℤ) (startS endS : String) : Bool :=
  let currentTime := now % 1440
  let s := parseTimeOfDay startS
  let e := parseTimeOfDay endS
  let startTime : ℤ := (s.1 * 60 + s.2 : Nat)
  let endTime : ℤ := (e.1 * 60 + e.2 : Nat)
  if startTime ≤ endTime then
    decide (startTime ≤ currentTime ∧ currentTime ≤ endTime)
  else
    decide (startTime ≤ currentTime ∨ currentTime ≤ endTime)

/-- The deferral target (cron module lines 78–84): today at one minute
past the quiet window's end (`setHours(endHour, endMinute + 1, 0, 0)`,
minute overflow rolling into the next hour/day), plus one day if that
moment has already passed. -/
def deferTime (now : ℤ) (endS : String) : ℤ :=
  let e := parseTimeOfDay endS
  let next := now / 1440 * 1440 + ((e.1 * 60 + e.2 + 1 : Nat) : ℤ)
  if next ≤ now then next + 1440 else next

/-- The notification payload's `data` object. -/
structure NotificationData where
  type : String
  documentId : Nat
  bikeId : Nat
  alertType : String
deriving DecidableEq, Repr

/-- A `notification_queue` row as created by the processor. -/
structure NotificationQueueEntry where
  userId : Nat
  title : String
  body : String
  category : String
  priority : NotificationPriority
  data : NotificationData
  status : NotificationStatus
deriving DecidableEq, Repr

/-- Return shape of `getAlertContent`. -/
structure AlertContent where
  title : String
  body : String
  priority : NotificationPriority
deriving DecidableEq, Repr

/-- Transcription of `getAlertContent` (cron module lines 162–206).  The switch on
`alertType` becomes an if-chain; `formattedDate` is the
locale-formatted expiry string, passed in as data. -/
def getAlertContent (alertType documentTitle bikeName formattedDate : String) :
    AlertContent :=
  if alertType = "30_day" then
    { title := "📄 Document Expiring Soon"
      body := documentTitle ++ " for " ++ bikeName ++ " expires on " ++
        formattedDate ++ " (30 days)"
      priority := .LOW }
  else if alertType = "7_day" then
    { title := "⚠️ Document Expires in 1 Week"
      body := documentTitle ++ " for " ++ bikeName ++ " expires on " ++
        formattedDate ++ ". Renew soon!"
      priority := .NORMAL }
  else if alertType = "1_day" then
    { title := "🚨 Document Expires Tomorrow!"
      body := documentTitle ++ " for " ++ bikeName ++
        " expires tomorrow. Renew immediately!"
      priority := .HIGH }
  else if alertType = "expired" then
    { title := "❌ Document Expired!"
      body := documentTitle ++ " for " ++ bikeName ++
        " has expired. Renew now to avoid penalties."
      priority := .CRITICAL }
  else
    { title := "Document Alert"
      body := documentTitle ++ " for " ++ bikeName
      priority := .NORMAL }

/-- The document / bike data joined onto an alert by the processor's
`include` (title, bike id, display name, formatted expiry date). -/
structure DocInfo where
  title : String
  bikeId : Nat
  bikeName : String
  formattedExpiry : String
deriving DecidableEq, Repr

/-- Evaluation of `settings?.documentAlerts` under JS optional chaining: an absent
settings row yields `undefined`, which is falsy. -/
def settingsDocumentAlerts : Option NotificationSettings → Bool
  | some s => s.documentAlerts
  | none => false

/-- The JS truthiness of a nullable string column (`null` and `""` are
falsy). -/
def truthy : Option String → Bool
  | some s => !(s = "")
  | none => false

/-- One iteration of the processor's per-alert loop (cron module lines
44–158) on the fetched row `alert`:

1. absent settings row or `documentAlerts` disabled → mark
   `ACKNOWLEDGED`, no notification;
2. both quiet-hours bounds set and `now` inside the window → rewrite
   `scheduledAt` to `deferTime`, nothing else changes;
3. otherwise enqueue: on success (`enqueueOk`) create the queue entry
   and mark the alert `SENT` with `sentAt = now`; on failure the catch
   block increments `retryCount`, marks `FAILED` once the new count
   reaches 3, and otherwise reschedules `5^retryCount` minutes out,
   recording `lastError` either way.

Returns the updated row and the enqueued entry, if any. -/
def processAlert (settings : Option NotificationSettings) (now : ℤ)
    (enqueueOk : Bool) (alert : DocumentAlert) (doc : DocInfo) :
    DocumentAlert × Option NotificationQueueEntry :=
  if settingsDocumentAlerts settings = false then
    ({ alert with status := .ACKNOWLEDGED }, none)
  else
    let quietDefer : Option ℤ :=
      match settings with
      | none => none
      | some s =>
        match s.quietHoursStart, s.quietHoursEnd with
        | some qs, some qe =>
          if truthy (some qs) ∧ truthy (some qe) ∧ isQuietTime now qs qe then
            some (deferTime now qe)
          else none
        | _, _ => none
    match quietDefer with
    | some nextTime => ({ alert with scheduledAt := nextTime }, none)
    | none =>
      if enqueueOk then
        let content :=
          getAlertContent alert.alertType doc.title doc.bikeName doc.formattedExpiry
        ({ alert with status := .SENT, sentAt := some now },
         some { userId := alert.userId
                title := content.title
                body := content.body
                category := "document"
                priority := content.priority
                data := { type := "document_expiry"
                          documentId := alert.documentId
                          bikeId := doc.bikeId
                          alertType := alert.alertType }
                status := .PENDING })
      else
        let newRetryCount := alert.retryCount + 1
        if 3 ≤ newRetryCount then
          ({ alert with status := .FAILED
                        retryCount := newRetryCount
                        lastError := some "enqueue failed" }, none)
        else
          let delayMinutes : ℤ := 5 ^ newRetryCount
          ({ alert with scheduledAt := now + delayMinutes
                        retryCount := newRetryCount
                        lastError := some "enqueue failed" }, none)

/-- The store state one processor tick works on. -/
structure TickState where
  alerts : List DocumentAlert
  settings : List NotificationSettings
  docs : List (Nat × DocInfo)
  queue : List NotificationQueueEntry
  now : ℤ
deriving Repr

/-- Lookup modelling `prisma.notificationSettings.findUnique` by user id. -/
def findSettings (ss : List NotificationSettings) (uid : Nat) :
    Option NotificationSettings :=
  ss.find? (fun s => s.userId = uid)

/-- Document join for an alert (the `include` of the batch query). -/
def lookupDoc (docs : List (Nat × DocInfo)) (documentId : Nat) : DocInfo :=
  ((docs.find? (fun p => p.1 = documentId)).map (fun p => p.2)).getD
    { title := "", bikeId := 0, bikeName := "", formattedExpiry := "" }

/-- The batch query of a tick (cron module lines 27–40): rows with
`status = PENDING` and `scheduledAt <= now`, capped at 100. -/
def selectDueAlerts (alerts : List DocumentAlert) (now : ℤ) :
    List DocumentAlert :=
  (alerts.filter (fun a => a.status = .PENDING ∧ a.scheduledAt ≤ now)).take 100

/-- Effect of a prisma update by id: replace the row with that id. -/
def applyRowUpdate (alerts : List DocumentAlert) (updated : DocumentAlert) :
    List DocumentAlert :=
  alerts.map (fun r => if r.id = updated.id then updated else r)

/-- One full tick of `processDocumentAlerts`: select the due pending
batch from the initial store, run the per-alert loop on each selected
snapshot row (the loop reads only the snapshot and the per-user
settings, which the tick never writes, so the sequential loop is the
composition of its independent iterations), write each updated row back
by id, and append the enqueued notifications in loop order. -/
def runTick (s : TickState) (enqueueOk : Bool) : TickState :=
  let selected := selectDueAlerts s.alerts s.now
  let results := selected.map (fun alert =>
    processAlert (findSettings s.settings alert.userId) s.now enqueueOk alert
      (lookupDoc s.docs alert.documentId))
  { s with
    alerts := results.foldl (fun acc r => applyRowUpdate acc r.1) s.alerts
    queue := s.queue ++ results.filterMap (fun r => r.2) }

/-! ## Concrete fixtures used by witnesses and counterexamples -/

/-- A due pending alert row (scheduled minute 500) for document 1, user 7. -/
def exampleAlert : DocumentAlert :=
  { id := 1, documentId := 1, userId := 7, alertType := "7_day",
    scheduledAt := 500, sentAt := none, status := .PENDING,
    retryCount := 0, lastError := none }

/-- Joined document/bike data for the fixture alert. -/
def exampleDoc : DocInfo :=
  { title := "Insurance", bikeId := 3, bikeName := "Thunder",
    formattedExpiry := "1 Jan 2026" }

/-- Settings row with alerts enabled and no quiet hours. -/
def enabledSettings : NotificationSettings :=
  { userId := 7, documentAlerts := true,
    quietHoursStart := none, quietHoursEnd := none }

/-- Settings row with alerts enabled and the wrapping window 22:00–06:00. -/
def quietSettings : NotificationSettings :=
  { userId := 7, documentAlerts := true,
    quietHoursStart := some "22:00", quietHoursEnd := some "06:00" }

/-- A store holding only the fixture alert, with no settings row for its
user, at tick time `now = 1000`. -/
def exampleState : TickState :=
  { alerts := [exampleAlert], settings := [], docs := [], queue := [],
    now := 1000 }

/-- The fixture alert after one failed enqueue at `now = 1000`. -/
def failOnce : DocumentAlert :=
  { exampleAlert with scheduledAt := 1005, retryCount := 1,
                      lastError := some "enqueue failed" }

/-- The fixture alert after a second failed enqueue at `now = 1005`. -/
def failTwice : DocumentAlert :=
  { failOnce with scheduledAt := 1030, retryCount := 2 }

/-- A document row owning the fixture alert. -/
def exampleDocument : Document :=
  { id := 1, userId := 7, title := "Insurance", expiryDate := some 999,
    deletedAt := none }

/-- A document whose expiry (day 30, 23:59) is strictly more than 30
days after `now = 600` (day 0, 10:00). -/
def lateExpiryDoc : Document :=
  { id := 1, userId := 7, title := "Insurance",
    expiryDate := some (30 * 1440 + 1439), deletedAt := none }

/-- A document whose expiry (day 0, 03:20) is in the past at
`now = 300` (day 0, 05:00). -/
def pastExpiryDoc : Document :=
  { id := 1, userId := 7, title := "Insurance", expiryDate := some 200,
    deletedAt := none }

/-- A bike whose last oil change is recorded ahead of its odometer. -/
def negBike : Bike :=
  { id := 1, userId := 7, currentOdometerKm := 0, lastOilChangeKm := 1000,
    oilChangeIntervalKm := 2500 }

/-- A bike whose usage percentage is not a two-decimal number. -/
def thirdBike : Bike :=
  { id := 1, userId := 7, currentOdometerKm := 1, lastOilChangeKm := 0,
    oilChangeIntervalKm := 3 }

/-- A bike at 2400 km with interval 2500 km and no recorded change. -/
def exampleBike : Bike :=
  { id := 1, userId := 7, currentOdometerKm := 2400, lastOilChangeKm := 0,
    oilChangeIntervalKm := 2500 }

/-! ## Claims -/

/-- C1: evaluation of the per-alert loop at the failing input.  For a
due pending alert whose user has no `NotificationSettings` row, the
code's `!settings?.documentAlerts` guard treats the absent row as
"alerts disabled": the tick transitions the alert to `ACKNOWLEDGED` and
enqueues nothing — it does not apply the permissive default ("enqueue
and mark sent") that the spec requires for configuration absence. -/
theorem absent_settings_alert_acknowledged :
    processAlert none 1000 true exampleAlert exampleDoc =
      ({ exampleAlert with status := .ACKNOWLEDGED }, none)
  ∧ (runTick exampleState true).alerts =
      [{ exampleAlert with status := .ACKNOWLEDGED }]
  ∧ (runTick exampleState true).queue = [] := by
  decide

/-- C2: evaluation of the retry path on consecutive enqueue failures.
The delays actually applied are 5 minutes (`5^1`) and 25 minutes
(`5^2`), and already the 3rd consecutive failure — not the 4th —
transitions the alert to `FAILED` with `retryCount = 3`; the 125-minute
(`5^3`) reschedule promised by the spec and by the code's own backoff
comment is unreachable. -/
theorem retry_backoff_code_behavior :
    processAlert (some enabledSettings) 1000 false exampleAlert exampleDoc =
      (failOnce, none)
  ∧ failOnce.scheduledAt = 1000 + 5
  ∧ failOnce.status = .PENDING
  ∧ processAlert (some enabledSettings) 1005 false failOnce exampleDoc =
      (failTwice, none)
  ∧ failTwice.scheduledAt = 1005 + 25
  ∧ failTwice.status = .PENDING
  ∧ processAlert (some enabledSettings) 1030 false failTwice exampleDoc =
      ({ failTwice with status := .FAILED, retryCount := 3 }, none) := by
  decide

/-- C3 counterexample: regenerating after an expiry edit does not mark
the document's pending alert `acknowledged` — it deletes the row.  With
one pending alert (id 1) for document 1, an update carrying a new expiry
leaves a store containing only the freshly generated row (id 2); row 1
is gone rather than present with status `ACKNOWLEDGED`. -/
theorem regeneration_deletes_pending_counterexample :
    (documentServiceUpdate exampleDocument [exampleAlert] (some 200) 300 2).2 =
      [{ id := 2, documentId := 1, userId := 7, alertType := "expired",
         scheduledAt := 540, sentAt := none, status := .PENDING,
         retryCount := 0, lastError := none }]
  ∧ exampleAlert.status = .PENDING
  ∧ exampleAlert.documentId = exampleDocument.id := by
  decide

/-- C4 counterexample: the two counting corollaries fail.  With
`now = 600` (day 0, 10:00) and expiry day 30 at 23:59 — strictly more
than 30 days away — the 30-day rung's 09:00-anchored fire time (day 0,
09:00) is already past, so only 3 instances are generated; with
`now = 300` (day 0, 05:00) and expiry 03:20 the same morning — already
in the past — the `expired` rung still fires at 09:00 that day, so 1
instance is generated instead of 0. -/
theorem schedule_generation_counterexample :
    30 * 1440 < (30 * 1440 + 1439 : ℤ) - 600
  ∧ (generateAlerts lateExpiryDoc 600).length = 3
  ∧ (200 : ℤ) < 300
  ∧ (generateAlerts pastExpiryDoc 300).length = 1 := by
  decide

/-- C5: the processor's quiet-hours containment test on both window
shapes.  The wrapping window 22:00–06:00 contains 23:30 (minute 1410)
and 02:00 (minute 120) but not 12:00 (minute 720); the non-wrapping
window 09:00–17:00 contains 10:00 (minute 600) but not 20:00 (minute
1200).  Timestamps are taken on day 10 to exercise the minute-of-day
reduction. -/
theorem quiet_hours_containment_cases :
    isQuietTime (10 * 1440 + 1410) "22:00" "06:00" = true
  ∧ isQuietTime (10 * 1440 + 120) "22:00" "06:00" = true
  ∧ isQuietTime (10 * 1440 + 720) "22:00" "06:00" = false
  ∧ isQuietTime (10 * 1440 + 600) "09:00" "17:00" = true
  ∧ isQuietTime (10 * 1440 + 1200) "09:00" "17:00" = false := by
  decide

/-- C8 counterexample: `calculateOilChangeStatus` does not clamp
`percentageUsed` below at 0 (it is `min(100, ·)` only, then rounded to
two decimals), so the claimed equality with the spec's
`clamp(0..100, ·)` reference fails: with the last change recorded ahead
of the odometer the percentage is −40, and with interval 3 after 1 km
the code rounds to 33.33 while the reference keeps 100/3. -/
theorem oil_percentage_clamp_counterexample :
    (calculateOilChangeStatus negBike).percentageUsed = -40
  ∧ (calculateOilChangeStatus negBike).percentageUsed < 0
  ∧ (specOilChangeStatus negBike).percentageUsed = 0
  ∧ (calculateOilChangeStatus thirdBike).percentageUsed = 3333 / 100
  ∧ (specOilChangeStatus thirdBike).percentageUsed = 100 / 3
  ∧ (calculateOilChangeStatus thirdBike).percentageUsed ≠
      (specOilChangeStatus thirdBike).percentageUsed := by
  refine ⟨?_, ?_, ?_, ?_, ?_, ?_⟩ <;>
    norm_num [calculateOilChangeStatus, specOilChangeStatus, negBike,
      thirdBike, roundTwo, jsRound, min_def, max_def]

/-- C9: `updateOdometer` rejects exactly the strictly decreasing
readings; on rejection the stored row is unchanged, and on acceptance
only `currentOdometerKm` changes. -/
theorem update_odometer_guard (bike : Bike) (n : ℤ) :
    (updateOdometer bike n =
        .error "New odometer reading cannot be less than current" ↔
      n < bike.currentOdometerKm)
  ∧ (n < bike.currentOdometerKm →
      updateOdometerInStore [bike] bike.id n = [bike])
  ∧ (bike.currentOdometerKm ≤ n →
      updateOdometerInStore [bike] bike.id n =
        [{ bike with currentOdometerKm := n }])
  ∧ (∀ b', updateOdometer bike n = .ok b' →
      b'.currentOdometerKm = n ∧ b'.id = bike.id ∧ b'.userId = bike.userId ∧
      b'.lastOilChangeKm = bike.lastOilChangeKm ∧
      b'.oilChangeIntervalKm = bike.oilChangeIntervalKm) := by
  by_cases h : n < bike.currentOdometerKm <;>
    simp [updateOdometer, updateOdometerInStore, h, not_lt.mp]

/-- C9 witness: the guard theorem applied to the 2400 km fixture bike,
once with a decreasing reading (100 km, rejected, store unchanged) and
once with an increasing one (2500 km, applied). -/
theorem update_odometer_guard_witness :
    (updateOdometer exampleBike 100 =
        .error "New odometer reading cannot be less than current" ↔
      (100 : ℤ) < exampleBike.currentOdometerKm)
  ∧ updateOdometerInStore [exampleBike] exampleBike.id 100 = [exampleBike]
  ∧ updateOdometerInStore [exampleBike] exampleBike.id 2500 =
      [{ exampleBike with currentOdometerKm := 2500 }] :=
  ⟨(update_odometer_guard exampleBike 100).1,
   (update_odometer_guard exampleBike 100).2.1 (by decide),
   (update_odometer_guard exampleBike 2500).2.2.1 (by decide)⟩

/-- C10: `getAlertContent` is total over arbitrary alert-type strings:
any string outside the four ladder values falls through to the fallback
title "Document Alert" with `NORMAL` priority, while the ladder values
map to `LOW`, `NORMAL`, `HIGH`, `CRITICAL` in order. -/
theorem alert_content_total (t d b f : String)
    (h30 : t ≠ "30_day") (h7 : t ≠ "7_day") (h1 : t ≠ "1_day")
    (hx : t ≠ "expired") :
    getAlertContent t d b f =
      { title := "Document Alert", body := d ++ " for " ++ b,
        priority := .NORMAL }
  ∧ (getAlertContent "30_day" d b f).priority = .LOW
  ∧ (getAlertContent "7_day" d b f).priority = .NORMAL
  ∧ (getAlertContent "1_day" d b f).priority = .HIGH
  ∧ (getAlertContent "expired" d b f).priority = .CRITICAL := by
  refine ⟨?_, ?_, ?_, ?_, ?_⟩ <;> simp [getAlertContent, h30, h7, h1, hx]

/-- C10 witness: the totality theorem applied at the unknown alert type
"maintenance". -/
theorem alert_content_total_witness :
    getAlertContent "maintenance" "Doc" "Bike" "1 Jan" =
      { title := "Document Alert", body := "Doc" ++ " for " ++ "Bike",
        priority := .NORMAL }
  ∧ (getAlertContent "30_day" "Doc" "Bike" "1 Jan").priority = .LOW
  ∧ (getAlertContent "7_day" "Doc" "Bike" "1 Jan").priority = .NORMAL
  ∧ (getAlertContent "1_day" "Doc" "Bike" "1 Jan").priority = .HIGH
  ∧ (getAlertContent "expired" "Doc" "Bike" "1 Jan").priority = .CRITICAL :=
  alert_content_total "maintenance" "Doc" "Bike" "1 Jan"
    (by decide) (by decide) (by decide) (by decide)

/-- C6: when a due pending alert is deferred by quiet hours, the
processor rewrites `scheduledAt` to one minute past the window's end on
the current day, rolled to the next day if that moment has passed; the
new time is strictly after `now` (hence `scheduledAt` never decreases),
the status stays `PENDING`, `retryCount` / `lastError` / `sentAt` are
untouched, and nothing is enqueued. -/
theorem quiet_hours_deferral_frame (s : NotificationSettings) (now : ℤ)
    (e : Bool) (alert : DocumentAlert) (doc : DocInfo) (qs qe : String)
    (hqs : s.quietHoursStart = some qs) (hqe : s.quietHoursEnd = some qe)
    (hqs0 : qs ≠ "") (hqe0 : qe ≠ "") (hen : s.documentAlerts = true)
    (hq : isQuietTime now qs qe = true) (hdue : alert.scheduledAt ≤ now)
    (hp : alert.status = .PENDING) :
    (processAlert (some s) now e alert doc).1 =
      { alert with scheduledAt := deferTime now qe }
  ∧ (processAlert (some s) now e alert doc).2 = none
  ∧ (deferTime now qe =
        now / 1440 * 1440 +
          (((parseTimeOfDay qe).1 * 60 + (parseTimeOfDay qe).2 + 1 : ℕ) : ℤ) ∨
     deferTime now qe =
        now / 1440 * 1440 +
          (((parseTimeOfDay qe).1 * 60 + (parseTimeOfDay qe).2 + 1 : ℕ) : ℤ) +
          1440)
  ∧ now < deferTime now qe
  ∧ alert.scheduledAt < deferTime now qe
  ∧ (processAlert (some s) now e alert doc).1.status = .PENDING
  ∧ (processAlert (some s) now e alert doc).1.retryCount = alert.retryCount
  ∧ (processAlert (some s) now e alert doc).1.lastError = alert.lastError
  ∧ (processAlert (some s) now e alert doc).1.sentAt = alert.sentAt := by
  have hsd : settingsDocumentAlerts (some s) = true := by
    simp [settingsDocumentAlerts, hen]
  have hbranch :
      processAlert (some s) now e alert doc =
        ({ alert with scheduledAt := deferTime now qe }, none) := by
    simp [processAlert, hsd, hqs, hqe, truthy, hqs0, hqe0, hq]
  have hmod := Int.ediv_add_emod now 1440
  have hlo : 0 ≤ now % 1440 := Int.emod_nonneg now (by norm_num)
  have hhi : now % 1440 < 1440 := Int.emod_lt_of_pos now (by norm_num)
  have hdef : now < deferTime now qe ∧
      (deferTime now qe =
        now / 1440 * 1440 +
          (((parseTimeOfDay qe).1 * 60 + (parseTimeOfDay qe).2 + 1 : ℕ) : ℤ) ∨
       deferTime now qe =
        now / 1440 * 1440 +
          (((parseTimeOfDay qe).1 * 60 + (parseTimeOfDay qe).2 + 1 : ℕ) : ℤ) +
          1440) := by
    simp only [deferTime]
    split_ifs with hle
    · exact ⟨by omega, Or.inr rfl⟩
    · exact ⟨by omega, Or.inl rfl⟩
  exact ⟨by rw [hbranch], by rw [hbranch], hdef.2, hdef.1,
    lt_of_le_of_lt hdue hdef.1,
    by rw [hbranch]; exact hp, by rw [hbranch], by rw [hbranch],
    by rw [hbranch]⟩

/-- C6 witness: the deferral theorem applied at 23:30 (minute 1410)
inside the wrapping window 22:00–06:00 of the fixture settings, for the
due pending fixture alert: the row is rescheduled to 06:01 the next day
(minute 1801), after `now`, with nothing enqueued. -/
theorem quiet_hours_deferral_witness :
    (processAlert (some quietSettings) 1410 true exampleAlert exampleDoc).1 =
      { exampleAlert with scheduledAt := deferTime 1410 "06:00" }
  ∧ (processAlert (some quietSettings) 1410 true exampleAlert exampleDoc).2 =
      none
  ∧ (1410 : ℤ) < deferTime 1410 "06:00"
  ∧ exampleAlert.scheduledAt < deferTime 1410 "06:00" := by
  have h := quiet_hours_deferral_frame quietSettings 1410 true exampleAlert
    exampleDoc "22:00" "06:00" rfl rfl (by decide) (by decide) rfl
    (by decide) (by decide) rfl
  exact ⟨h.1, h.2.1, h.2.2.2.1, h.2.2.2.2.1⟩

/-- Rounding to two decimals keeps a value of `[0, 100]` inside
`[0, 100]`. -/
lemma roundTwo_bounds {x : ℚ} (h0 : 0 ≤ x) (h1 : x ≤ 100) :
    0 ≤ roundTwo x ∧ roundTwo x ≤ 100 := by
  unfold roundTwo jsRound
  constructor
  · apply div_nonneg _ (by norm_num)
    have hz : (0 : ℤ) ≤ ⌊x * 100 + 1/2⌋ := Int.le_floor.mpr (by push_cast; nlinarith)
    exact_mod_cast hz
  · rw [div_le_iff₀ (by norm_num : (0 : ℚ) < 100)]
    have hfl : ⌊x * 100 + 1/2⌋ ≤ 10000 := by
      have hle := Int.floor_le (x * 100 + 1/2)
      have hmid : (⌊x * 100 + 1/2⌋ : ℚ) ≤ 10000 + 1/2 :=
        le_trans hle (by nlinarith)
      have h2 : (⌊x * 100 + 1/2⌋ : ℚ) < 10001 :=
        lt_of_le_of_lt hmid (by norm_num)
      have h3 : ⌊x * 100 + 1/2⌋ < 10001 := by exact_mod_cast h2
      omega
    calc (⌊x * 100 + 1/2⌋ : ℚ) ≤ 10000 := by exact_mod_cast hfl
      _ = 100 * 100 := by norm_num

/-- C8 (amended): `calculateOilChangeStatus` matches the spec's
reference on `status` (thresholds at 0 and 250 km on
`interval - kmSinceChange`) and on `kmRemaining = max 0 (·)`, and on the
two quoted examples; but `percentageUsed` is only upper-clamped
(`min(100, ·)`) and rounded to two decimals — it lies in `[0, 100]`
whenever `kmSinceChange` is non-negative, and can be negative
otherwise. -/
theorem oil_change_status_amended :
    (∀ bike : Bike, 0 < bike.oilChangeIntervalKm →
      (((calculateOilChangeStatus bike).status = .overdue ↔
        bike.oilChangeIntervalKm -
          (bike.currentOdometerKm - bike.lastOilChangeKm) ≤ 0)
      ∧ ((calculateOilChangeStatus bike).status = .due_soon ↔
        (0 < bike.oilChangeIntervalKm -
            (bike.currentOdometerKm - bike.lastOilChangeKm) ∧
         bike.oilChangeIntervalKm -
            (bike.currentOdometerKm - bike.lastOilChangeKm) ≤ 250))
      ∧ ((calculateOilChangeStatus bike).status = .ok ↔
        250 < bike.oilChangeIntervalKm -
          (bike.currentOdometerKm - bike.lastOilChangeKm))
      ∧ (calculateOilChangeStatus bike).kmRemaining =
          max 0 (bike.oilChangeIntervalKm -
            (bike.currentOdometerKm - bike.lastOilChangeKm))
      ∧ (calculateOilChangeStatus bike).percentageUsed =
          roundTwo (min 100
            (((bike.currentOdometerKm - bike.lastOilChangeKm : ℤ) : ℚ) /
              ((bike.oilChangeIntervalKm : ℤ) : ℚ) * 100))
      ∧ (0 ≤ bike.currentOdometerKm - bike.lastOilChangeKm →
          0 ≤ (calculateOilChangeStatus bike).percentageUsed ∧
          (calculateOilChangeStatus bike).percentageUsed ≤ 100)))
  ∧ (calculateOilChangeStatus exampleBike).status = .due_soon
  ∧ (calculateOilChangeStatus exampleBike).kmRemaining = 100
  ∧ (calculateOilChangeStatus
       { exampleBike with currentOdometerKm := 2600 }).status = .overdue
  ∧ (calculateOilChangeStatus
       { exampleBike with currentOdometerKm := 2600 }).kmRemaining = 0 := by
  constructor
  · intro bike h
    have hq0 : (0 : ℚ) < (bike.oilChangeIntervalKm : ℚ) := by exact_mod_cast h
    refine ⟨?_, ?_, ?_, ?_, ?_, ?_⟩
    · by_cases h1 : bike.oilChangeIntervalKm -
          (bike.currentOdometerKm - bike.lastOilChangeKm) ≤ 0 <;>
        by_cases h2 : bike.oilChangeIntervalKm -
          (bike.currentOdometerKm - bike.lastOilChangeKm) ≤ 250 <;>
        simp [calculateOilChangeStatus, h1, h2]
    · by_cases h1 : bike.oilChangeIntervalKm -
          (bike.currentOdometerKm - bike.lastOilChangeKm) ≤ 0 <;>
        by_cases h2 : bike.oilChangeIntervalKm -
          (bike.currentOdometerKm - bike.lastOilChangeKm) ≤ 250 <;>
        simp [calculateOilChangeStatus, h1, h2] <;> omega
    · by_cases h1 : bike.oilChangeIntervalKm -
          (bike.currentOdometerKm - bike.lastOilChangeKm) ≤ 0 <;>
        by_cases h2 : bike.oilChangeIntervalKm -
          (bike.currentOdometerKm - bike.lastOilChangeKm) ≤ 250 <;>
        simp [calculateOilChangeStatus, h1, h2] <;> omega
    · rfl
    · rfl
    · intro hks
      have hks' : (0 : ℚ) ≤ ((bike.currentOdometerKm - bike.lastOilChangeKm : ℤ) : ℚ) := by
        exact_mod_cast hks
      have hmin0 : (0 : ℚ) ≤ min 100
          (((bike.currentOdometerKm - bike.lastOilChangeKm : ℤ) : ℚ) /
            ((bike.oilChangeIntervalKm : ℤ) : ℚ) * 100) :=
        le_min (by norm_num) (by positivity)
      have hmin1 : min 100
          (((bike.currentOdometerKm - bike.lastOilChangeKm : ℤ) : ℚ) /
            ((bike.oilChangeIntervalKm : ℤ) : ℚ) * 100) ≤ 100 :=
        min_le_left _ _
      exact roundTwo_bounds hmin0 hmin1
  · refine ⟨?_, ?_, ?_, ?_⟩ <;>
      norm_num [calculateOilChangeStatus, exampleBike]

/-- C8 witness: the amended theorem applied to the fixture bike at
2400 km of a 2500 km interval: `kmRemaining` follows the clamped
formula and `percentageUsed` lies within `[0, 100]`. -/
theorem oil_change_status_amended_witness :
    (calculateOilChangeStatus exampleBike).kmRemaining =
      max 0 (exampleBike.oilChangeIntervalKm -
        (exampleBike.currentOdometerKm - exampleBike.lastOilChangeKm))
  ∧ 0 ≤ (calculateOilChangeStatus exampleBike).percentageUsed
  ∧ (calculateOilChangeStatus exampleBike).percentageUsed ≤ 100 :=
  ⟨(oil_change_status_amended.1 exampleBike (by decide)).2.2.2.1,
   ((oil_change_status_amended.1 exampleBike (by decide)).2.2.2.2.2
      (by decide)).1,
   ((oil_change_status_amended.1 exampleBike (by decide)).2.2.2.2.2
      (by decide)).2⟩

/-- C3 (amended): when a document's expiry date is edited, the
regeneration path *deletes* that document's `PENDING` alert rows from
the store (`deleteMany`) before generating anew — it does not mark them
`acknowledged`; rows of other documents or in non-pending states are
preserved.  It is the document *soft-deletion* path that invalidates in
place: it keeps every row (store size unchanged) and flips the
document's pending rows to `ACKNOWLEDGED`.  Freshness of the ids the
database would assign (`hfresh`) separates old rows from regenerated
ones. -/
theorem regeneration_amended (doc : Document) (alerts : List DocumentAlert)
    (e now : ℤ) (nextId : Nat)
    (hfresh : ∀ a ∈ alerts, a.id < nextId) :
    (∀ a ∈ alerts, a.documentId = doc.id → a.status = .PENDING →
      a ∉ (documentServiceUpdate doc alerts (some e) now nextId).2)
  ∧ (∀ a ∈ alerts, ¬(a.documentId = doc.id ∧ a.status = .PENDING) →
      a ∈ (documentServiceUpdate doc alerts (some e) now nextId).2)
  ∧ (documentServiceDelete doc alerts now).2.length = alerts.length
  ∧ (∀ a ∈ alerts, a.documentId = doc.id → a.status = .PENDING →
      { a with status := AlertStatus.ACKNOWLEDGED } ∈
        (documentServiceDelete doc alerts now).2)
  ∧ (∀ a ∈ alerts, ¬(a.documentId = doc.id ∧ a.status = .PENDING) →
      a ∈ (documentServiceDelete doc alerts now).2) := by
  refine ⟨?_, ?_, ?_, ?_, ?_⟩
  · intro a ha hdoc hst hmem
    simp only [documentServiceUpdate, appendNewAlerts, List.mem_append] at hmem
    rcases hmem with hmem | hmem
    · simp only [List.mem_filter, Bool.not_eq_eq_eq_not, Bool.not_true,
        decide_eq_false_iff_not] at hmem
      exact hmem.2 ⟨hdoc, hst⟩
    · rcases List.mem_map.mp hmem with ⟨p, _, hp⟩
      have : a.id = nextId + p.1 := by rw [← hp]
      have := hfresh a ha
      omega
  · intro a ha hnot
    simp only [documentServiceUpdate, appendNewAlerts, List.mem_append]
    refine Or.inl (List.mem_filter.mpr ⟨ha, ?_⟩)
    simp only [Bool.not_eq_eq_eq_not, Bool.not_true, decide_eq_false_iff_not]
    exact hnot
  · simp [documentServiceDelete]
  · intro a ha hdoc hst
    simp only [documentServiceDelete]
    have : ({ a with status := AlertStatus.ACKNOWLEDGED } : DocumentAlert) =
        (fun a => if a.documentId = doc.id ∧ a.status = .PENDING then
          { a with status := AlertStatus.ACKNOWLEDGED } else a) a := by
      simp [hdoc, hst]
    rw [this]
    exact List.mem_map_of_mem _ ha
  · intro a ha hnot
    simp only [documentServiceDelete]
    have : a = (fun a => if a.documentId = doc.id ∧ a.status = .PENDING then
        { a with status := AlertStatus.ACKNOWLEDGED } else a) a := by
      simp [hnot]
    rw [this]
    exact List.mem_map_of_mem _ ha

/-- C3 witness: the amended theorem applied to the fixture store: the
pending alert of document 1 is gone after an expiry-edit regeneration,
and is present as `ACKNOWLEDGED` after soft-deletion. -/
theorem regeneration_amended_witness :
    exampleAlert ∉
      (documentServiceUpdate exampleDocument [exampleAlert] (some 200) 300 2).2
  ∧ { exampleAlert with status := AlertStatus.ACKNOWLEDGED } ∈
      (documentServiceDelete exampleDocument [exampleAlert] 300).2 :=
  ⟨(regeneration_amended exampleDocument [exampleAlert] 200 300 2
      (by decide)).1 exampleAlert (by decide) (by decide) (by decide),
   (regeneration_amended exampleDocument [exampleAlert] 200 300 2
      (by decide)).2.2.2.1 exampleAlert (by decide) (by decide) (by decide)⟩

/-- A document expiring at 10:00 on day 200, far beyond 30 days after
`now = 600`. -/
def farExpiryDoc : Document :=
  { id := 1, userId := 7, title := "Insurance",
    expiryDate := some (200 * 1440 + 600), deletedAt := none }

/-- C4 (amended): for a document with expiry `e`, generation walks the
ordered ladder and keeps, per rung `(type, daysBefore)`, an instance
scheduled at 09:00 of the day `daysBefore` days before `e`'s calendar
day, exactly when that moment is strictly after `now`; at most 4
instances result, in strictly ascending `scheduledAt` order.  Exactly 4
result whenever the 30-day rung's 09:00 fire time is still in the
future (rather than whenever `e` is more than 30 days away), and 0
result whenever `e`'s calendar day is strictly before `now`'s (rather
than whenever `e < now`). -/
theorem schedule_generation_amended (doc : Document) (e now : ℤ)
    (hexp : doc.expiryDate = some e) :
    generateAlerts doc now =
      alertConfigs.filterMap (fun cfg =>
        if now < (e / 1440 - (cfg.2 : ℤ)) * 1440 + 540 then
          some { documentId := doc.id, userId := doc.userId,
                 alertType := cfg.1,
                 scheduledAt := (e / 1440 - (cfg.2 : ℤ)) * 1440 + 540,
                 status := .PENDING }
        else none)
  ∧ (generateAlerts doc now).length ≤ 4
  ∧ ((generateAlerts doc now).map (fun a => a.scheduledAt)).Chain' (· < ·)
  ∧ (now < (e / 1440 - 30) * 1440 + 540 →
      (generateAlerts doc now).map (fun a => (a.alertType, a.scheduledAt)) =
        [("30_day", (e / 1440 - 30) * 1440 + 540),
         ("7_day", (e / 1440 - 7) * 1440 + 540),
         ("1_day", (e / 1440 - 1) * 1440 + 540),
         ("expired", e / 1440 * 1440 + 540)])
  ∧ (e / 1440 < now / 1440 → generateAlerts doc now = []) := by
  have key : ∀ k : ℕ, setHourNine (e - (k : ℤ) * 1440) =
      (e / 1440 - (k : ℤ)) * 1440 + 540 := by
    intro k
    have h1 : (e - (k : ℤ) * 1440) / 1440 = e / 1440 - k := by omega
    simp only [setHourNine, h1]
  have hgen : generateAlerts doc now =
      alertConfigs.filterMap (fun cfg =>
        if now < (e / 1440 - (cfg.2 : ℤ)) * 1440 + 540 then
          some { documentId := doc.id, userId := doc.userId,
                 alertType := cfg.1,
                 scheduledAt := (e / 1440 - (cfg.2 : ℤ)) * 1440 + 540,
                 status := .PENDING }
        else none) := by
    simp only [generateAlerts, hexp]
    congr 1
    funext cfg
    rw [key cfg.2]
  refine ⟨hgen, ?_, ?_, ?_, ?_⟩
  · rw [hgen]
    exact le_trans (List.length_filterMap_le _ _) (by simp [alertConfigs])
  · rw [hgen]
    simp only [alertConfigs, List.filterMap_cons, List.filterMap_nil]
    split_ifs with h30 h7 h1d h0 <;>
      simp [List.chain'_cons, List.chain'_singleton]
  · intro hfar
    rw [hgen]
    simp only [alertConfigs, List.filterMap_cons, List.filterMap_nil]
    split_ifs with h30 h7 h1d h0 <;> first
      | (exfalso; omega)
      | simp
  · intro hpast
    rw [hgen]
    simp only [alertConfigs, List.filterMap_cons, List.filterMap_nil]
    split_ifs with h30 h7 h1d h0 <;> first
      | rfl
      | (exfalso; omega)

/-- C4 witness: the amended theorem applied to a document expiring on
day 200 with `now = 600`: all four rungs fire, at 09:00 on days 170,
193, 199 and 200. -/
theorem schedule_generation_amended_witness :
    (generateAlerts farExpiryDoc 600).map (fun a => (a.alertType, a.scheduledAt)) =
      [("30_day", 245340), ("7_day", 278460), ("1_day", 287100),
       ("expired", 288540)] := by
  have h := (schedule_generation_amended farExpiryDoc (200 * 1440 + 600) 600
    rfl).2.2.2.1 (by decide)
  rw [h]
  norm_num

/-- Identity of the alert row is preserved by every branch of the
per-alert loop. -/
lemma processAlert_fst_id (st : Option NotificationSettings) (now : ℤ)
    (e : Bool) (alert : DocumentAlert) (doc : DocInfo) :
    (processAlert st now e alert doc).1.id = alert.id := by
  rcases st with _ | s
  · rfl
  · simp only [processAlert]
    rcases hqs : s.quietHoursStart with _ | qs <;>
      rcases hqe : s.quietHoursEnd with _ | qe <;>
        simp only [hqs, hqe] <;> split_ifs <;> rfl

/-- A row update aimed at a different id keeps a row present. -/
lemma mem_applyRowUpdate_of_ne {l : List DocumentAlert}
    {u a : DocumentAlert} (ha : a ∈ l) (hne : u.id ≠ a.id) :
    a ∈ applyRowUpdate l u := by
  have hfix : (if a.id = u.id then u else a) = a := by
    rw [if_neg (fun h => hne h.symm)]
  unfold applyRowUpdate
  exact hfix ▸ List.mem_map_of_mem _ ha

/-- A row found after an update aimed at a different id was already in
the store. -/
lemma mem_of_mem_applyRowUpdate_of_ne {l : List DocumentAlert}
    {u r : DocumentAlert} (hr : r ∈ applyRowUpdate l u) (hne : u.id ≠ r.id) :
    r ∈ l := by
  unfold applyRowUpdate at hr
  rcases List.mem_map.mp hr with ⟨x, hx, hfx⟩
  by_cases hxi : x.id = u.id
  · rw [if_pos hxi] at hfx
    exact absurd (congrArg DocumentAlert.id hfx) hne
  · rw [if_neg hxi] at hfx
    exact hfx ▸ hx

/-- Folding row updates whose ids all differ from `a.id` keeps `a`
present. -/
lemma mem_foldl_applyRowUpdate
    {rs : List (DocumentAlert × Option NotificationQueueEntry)}
    {l : List DocumentAlert} {a : DocumentAlert}
    (ha : a ∈ l) (hne : ∀ r ∈ rs, r.1.id ≠ a.id) :
    a ∈ rs.foldl (fun acc r => applyRowUpdate acc r.1) l := by
  induction rs generalizing l with
  | nil => exact ha
  | cons r rs ih =>
    exact ih (mem_applyRowUpdate_of_ne ha (hne r (List.mem_cons_self r rs)))
      (fun x hx => hne x (List.mem_cons_of_mem _ hx))

/-- A row with an id untouched by a fold of row updates was already in
the store. -/
lemma mem_of_mem_foldl_applyRowUpdate
    {rs : List (DocumentAlert × Option NotificationQueueEntry)}
    {l : List DocumentAlert} {x a : DocumentAlert}
    (hx : x ∈ rs.foldl (fun acc r => applyRowUpdate acc r.1) l)
    (hid : x.id = a.id) (hne : ∀ r ∈ rs, r.1.id ≠ a.id) : x ∈ l := by
  induction rs generalizing l with
  | nil => exact hx
  | cons r rs ih =>
    have h1 : x ∈ applyRowUpdate l r.1 :=
      ih hx (fun y hy => hne y (List.mem_cons_of_mem _ hy))
    exact mem_of_mem_applyRowUpdate_of_ne h1
      (fun h => hne r (List.mem_cons_self r rs) (h.trans hid))

/-- C7: a tick's batch query selects only `PENDING` rows with
`scheduledAt ≤ now` (capped at 100), so a row in a terminal state
(`SENT`, `FAILED` or `ACKNOWLEDGED`) is never selected, survives the
tick unchanged (assuming the store's row ids are unique), and every
notification a tick appends originates from some selected pending due
row — whose id differs from the terminal row's.  In particular a second
tick run after a row has transitioned to `SENT` enqueues no further
notification for it. -/
theorem terminal_alerts_untouched (s : TickState) (e : Bool)
    (a : DocumentAlert) (ha : a ∈ s.alerts)
    (hnd : (s.alerts.map (fun r => r.id)).Nodup)
    (hterm : a.status ≠ .PENDING) :
    a ∉ selectDueAlerts s.alerts s.now
  ∧ a ∈ (runTick s e).alerts
  ∧ (∀ r ∈ (runTick s e).alerts, r.id = a.id → r = a)
  ∧ (runTick s e).queue = s.queue ++
      (selectDueAlerts s.alerts s.now).filterMap (fun b =>
        (processAlert (findSettings s.settings b.userId) s.now e b
          (lookupDoc s.docs b.documentId)).2)
  ∧ (∀ n ∈ (selectDueAlerts s.alerts s.now).filterMap (fun b =>
        (processAlert (findSettings s.settings b.userId) s.now e b
          (lookupDoc s.docs b.documentId)).2),
      ∃ b, b ∈ selectDueAlerts s.alerts s.now ∧ b.status = .PENDING ∧
        b.scheduledAt ≤ s.now ∧ b.id ≠ a.id ∧
        (processAlert (findSettings s.settings b.userId) s.now e b
          (lookupDoc s.docs b.documentId)).2 = some n) := by
  have hsel : ∀ b ∈ selectDueAlerts s.alerts s.now,
      b ∈ s.alerts ∧ b.status = .PENDING ∧ b.scheduledAt ≤ s.now := by
    intro b hb
    have hb' := List.mem_of_mem_take hb
    rcases List.mem_filter.mp hb' with ⟨h1, h2⟩
    simp only [decide_eq_true_eq] at h2
    exact ⟨h1, h2.1, h2.2⟩
  have hanot : a ∉ selectDueAlerts s.alerts s.now := by
    intro h
    exact hterm (hsel a h).2.1
  have hne : ∀ b ∈ selectDueAlerts s.alerts s.now, b.id ≠ a.id := by
    intro b hb heq
    have hba : b = a :=
      List.inj_on_of_nodup_map hnd (hsel b hb).1 ha heq
    exact hterm (hba ▸ (hsel b hb).2.1)
  have hRne : ∀ r ∈ (selectDueAlerts s.alerts s.now).map (fun alert =>
      processAlert (findSettings s.settings alert.userId) s.now e alert
        (lookupDoc s.docs alert.documentId)), r.1.id ≠ a.id := by
    intro r hr
    rcases List.mem_map.mp hr with ⟨b, hb, hrb⟩
    rw [← hrb, processAlert_fst_id]
    exact hne b hb
  refine ⟨hanot, ?_, ?_, ?_, ?_⟩
  · exact mem_foldl_applyRowUpdate ha hRne
  · intro r hr hid
    have hrs : r ∈ s.alerts :=
      mem_of_mem_foldl_applyRowUpdate hr hid hRne
    exact List.inj_on_of_nodup_map hnd hrs ha hid
  · simp only [runTick, List.filterMap_map]
    rfl
  · intro n hn
    rcases List.mem_filterMap.mp hn with ⟨b, hb, hsome⟩
    exact ⟨b, hb, (hsel b hb).2.1, (hsel b hb).2.2, hne b hb, hsome⟩

/-- An alert row already transitioned to `SENT`. -/
def sentAlert : DocumentAlert :=
  { id := 2, documentId := 1, userId := 7, alertType := "30_day",
    scheduledAt := 400, sentAt := some 400, status := .SENT,
    retryCount := 0, lastError := none }

/-- A store holding a sent row next to a due pending row, with the
user's settings present and alerts enabled. -/
def twoAlertState : TickState :=
  { alerts := [sentAlert, exampleAlert], settings := [enabledSettings],
    docs := [(1, exampleDoc)], queue := [], now := 1000 }

/-- C7 witness: the terminal-row theorem applied to the fixture store:
the already-sent row is not selected by the batch query and survives
the tick. -/
theorem terminal_alerts_untouched_witness :
    sentAlert ∉ selectDueAlerts twoAlertState.alerts twoAlertState.now
  ∧ sentAlert ∈ (runTick twoAlertState true).alerts := by
  have h := terminal_alerts_untouched twoAlertState true sentAlert
    (by decide) (by decide) (by decide)
  exact ⟨h.1, h.2.1⟩

end VecDoc
